import Mathlib

/-!
Verification of the mediaflow upload-strategy engine
(`internal/upload/service.go`, `internal/upload/types.go`) against its
natural-language specification.  The Go code is shallowly embedded:
pure helpers become Lean functions on `String`/`Int`, the S3 client is
an explicit response function, and the service call additionally
returns the list of storage calls it issued so that side-effect claims
can be stated.
-/

deriving instance DecidableEq for Except

namespace Mediaflow

/-! ### Go `strings.ReplaceAll` on `List Char`

`goReplaceAllAux fuel s pat rep` scans `s` left to right; whenever the
(non-empty) pattern is a prefix of the remaining input it emits the
replacement and skips the pattern, otherwise it keeps one character.
This is exactly the semantics of Go's `strings.ReplaceAll` for a
non-empty pattern.  The fuel argument (instantiated with `s.length`)
only makes the recursion structural; one unit of fuel is spent per
emitted chunk and the remaining input shrinks at least as fast. -/
def goReplaceAllAux (rep pat : List Char) : Nat → List Char → List Char
  | 0, s => s
  | _ + 1, [] => []
  | fuel + 1, c :: cs =>
    if pat.isPrefixOf (c :: cs) then
      rep ++ goReplaceAllAux rep pat fuel ((c :: cs).drop pat.length)
    else
      c :: goReplaceAllAux rep pat fuel cs

/-- Go `strings.ReplaceAll(s, pat, rep)`.  For the empty pattern Go
inserts the replacement before every character and at the end; the
upload service only ever uses non-empty literal patterns. -/
def goReplaceAll (s pat rep : List Char) : List Char :=
  if pat = [] then rep ++ (s.map (fun c => [c] ++ rep)).flatten
  else goReplaceAllAux rep pat s.length s

/-- `strings.ReplaceAll` lifted to `String`. -/
def strReplaceAll (s pat rep : String) : String :=
  ⟨goReplaceAll s.data pat.data rep.data⟩

/-! ### `service.go` pure helpers -/

/-- `Service.isMimeAllowed` (service.go:68-75): linear scan comparing the
request MIME with each allowed MIME by Go `==` on strings (exact,
case-sensitive). -/
def isMimeAllowed (mime : String) (allowedMimes : List String) : Bool :=
  allowedMimes.any (fun allowed => mime == allowed)

/-- `Service.buildObjectKey` (service.go:77-96): substitute
`\x7bkey_base\x7d` and `\x7bext\x7d`, then either substitute the shard
placeholders (non-empty shard) or delete `\x7bshard?\x7d` together with
one adjacent `/` (empty shard). -/
def buildObjectKey (template keyBase ext shard : String) : String :=
  let objectKey := template
  let objectKey := strReplaceAll objectKey "\x7bkey_base\x7d" keyBase
  let objectKey := strReplaceAll objectKey "\x7bext\x7d" ext
  if shard ≠ "" then
    let objectKey := strReplaceAll objectKey "\x7bshard?\x7d" shard
    strReplaceAll objectKey "\x7bshard\x7d" shard
  else
    let objectKey := strReplaceAll objectKey "/\x7bshard?\x7d" ""
    let objectKey := strReplaceAll objectKey "\x7bshard?\x7d/" ""
    strReplaceAll objectKey "\x7bshard?\x7d" ""

/-- `Service.determineStrategy` (service.go:98-114): Go `switch` on the
multipart mode with `"auto"` falling through to the default size
comparison. -/
def determineStrategy (multipart : String) (sizeBytes thresholdMB : Int) : String :=
  let thresholdBytes := thresholdMB * 1024 * 1024
  if multipart = "force" then "multipart"
  else if multipart = "off" then "single"
  else if sizeBytes > thresholdBytes then "multipart"
  else "single"

/-- `Service.buildRequiredHeaders` (service.go:116-125).  The Go
`map[string]string` is modelled as an association list in insertion
order. -/
def buildRequiredHeaders (mime : String) : List (String × String) :=
  [("Content-Type", mime)]

/-! ### SHA-1 (`crypto/sha1`) over `Nat` bytes

32-bit machine words are `Nat`s kept below `2 ^ 32` by explicit
`% 4294967296` reductions.  Only what `GenerateShard` needs is
modelled: the full digest computation and the first digest byte. -/

/-- UTF-8 encoding of one scalar value (Go `[]byte(string)` is the
UTF-8 encoding of the string). -/
def utf8EncodeChar (n : Nat) : List Nat :=
  if n < 0x80 then [n]
  else if n < 0x800 then [0xC0 + n / 64, 0x80 + n % 64]
  else if n < 0x10000 then [0xE0 + n / 4096, 0x80 + n / 64 % 64, 0x80 + n % 64]
  else [0xF0 + n / 262144, 0x80 + n / 4096 % 64, 0x80 + n / 64 % 64, 0x80 + n % 64]

/-- UTF-8 bytes of a string, Go `[]byte(keyBase)`. -/
def utf8Bytes (s : String) : List Nat :=
  (s.data.map (fun c => utf8EncodeChar c.toNat)).flatten

def w32 (n : Nat) : Nat := n % 4294967296

/-- Rotate a 32-bit word left by `k`. -/
def rotl32 (x k : Nat) : Nat :=
  w32 (x <<< k) ||| (x >>> (32 - k))

/-- Big-endian 4-byte groups to 32-bit words. -/
def bytesToWords : List Nat → List Nat
  | b0 :: b1 :: b2 :: b3 :: rest =>
    (((b0 * 256 + b1) * 256 + b2) * 256 + b3) :: bytesToWords rest
  | _ => []

/-- Message schedule: extend the 16 block words to 80. -/
def sha1Extend : Nat → List Nat → List Nat
  | 0, w => w
  | k + 1, w =>
    let n := w.length
    let x := (w.getD (n - 3) 0) ^^^ (w.getD (n - 8) 0) ^^^
             (w.getD (n - 14) 0) ^^^ (w.getD (n - 16) 0)
    sha1Extend k (w ++ [rotl32 x 1])

/-- One round of the SHA-1 compression function; `i` is the round
index 0..79. -/
def sha1Round (i wi : Nat) :
    Nat × Nat × Nat × Nat × Nat → Nat × Nat × Nat × Nat × Nat
  | (a, b, c, d, e) =>
    let f :=
      if i < 20 then (b &&& c) ||| ((2 ^ 32 - 1 - b) &&& d)
      else if i < 40 then b ^^^ c ^^^ d
      else if i < 60 then (b &&& c) ||| (b &&& d) ||| (c &&& d)
      else b ^^^ c ^^^ d
    let k :=
      if i < 20 then 0x5A827999
      else if i < 40 then 0x6ED9EBA1
      else if i < 60 then 0x8F1BBCDC
      else 0xCA62C1D6
    let temp := w32 (rotl32 a 5 + f + e + k + wi)
    (temp, a, rotl32 b 30, c, d)

def sha1Rounds : List Nat → Nat → Nat × Nat × Nat × Nat × Nat →
    Nat × Nat × Nat × Nat × Nat
  | [], _, st => st
  | wi :: rest, i, st => sha1Rounds rest (i + 1) (sha1Round i wi st)

/-- Compress one 64-byte block into the running state. -/
def sha1Block (h : Nat × Nat × Nat × Nat × Nat) (block : List Nat) :
    Nat × Nat × Nat × Nat × Nat :=
  let w := sha1Extend 64 (bytesToWords block)
  let st := sha1Rounds w 0 h
  match h, st with
  | (h0, h1, h2, h3, h4), (a, b, c, d, e) =>
    (w32 (h0 + a), w32 (h1 + b), w32 (h2 + c), w32 (h3 + d), w32 (h4 + e))

def sha1Blocks : Nat → Nat × Nat × Nat × Nat × Nat → List Nat →
    Nat × Nat × Nat × Nat × Nat
  | 0, h, _ => h
  | fuel + 1, h, msg =>
    if msg.isEmpty then h
    else sha1Blocks fuel (sha1Block h (msg.take 64)) (msg.drop 64)

/-- SHA-1 padding: append `0x80`, zeros to 56 mod 64, then the 8-byte
big-endian bit length. -/
def sha1Pad (msg : List Nat) : List Nat :=
  let len := msg.length
  let zeros := (119 - len % 64) % 64
  msg ++ [0x80] ++ List.replicate zeros 0 ++
    (List.range 8).map (fun j => ((len * 8) >>> (8 * (7 - j))) % 256)

/-- The five 32-bit state words of the SHA-1 digest of a byte string
(`crypto/sha1.Sum`). -/
def sha1Digest (msg : List Nat) : Nat × Nat × Nat × Nat × Nat :=
  let padded := sha1Pad msg
  sha1Blocks (padded.length) (0x67452301, 0xEFCDAB89, 0x98BADCFE, 0x10325476, 0xC3D2E1F0) padded

/-- First byte of the SHA-1 digest, `sha1.Sum(...)[0]`. -/
def sha1FirstByte (msg : List Nat) : Nat :=
  (sha1Digest msg).1 >>> 24

/-- One lowercase hex digit (`fmt` verb `x`). -/
def hexChar (n : Nat) : Char :=
  if n < 10 then Char.ofNat (48 + n) else Char.ofNat (87 + n)

/-- `fmt.Sprintf("%02x", b)` for one byte: exactly two lowercase hex
characters. -/
def byteToHex (b : Nat) : String :=
  ⟨[hexChar (b / 16 % 16), hexChar (b % 16)]⟩

/-- `GenerateShard` (service.go:197-201): first byte of the SHA-1
digest of the UTF-8 bytes of `keyBase`, rendered as two lowercase hex
characters. -/
def GenerateShard (keyBase : String) : String :=
  byteToHex (sha1FirstByte (utf8Bytes keyBase))

/-! ### Data model (`types.go`, `config.go`) -/

/-- `config.Profile` (config.go), the fields the upload service reads.
Go `int64` values are modelled as `Int`. -/
structure Profile where
  kind : String
  allowedMimes : List String
  sizeMaxBytes : Int
  multipartThresholdMB : Int
  partSizeMB : Int
  tokenTTLSeconds : Int
  storagePath : String
  enableSharding : Bool
deriving DecidableEq, Repr

/-- `upload.PresignRequest` (types.go:6-15). -/
structure PresignRequest where
  keyBase : String
  ext : String
  mime : String
  sizeBytes : Int
  kind : String
  profileName : String
  multipart : String
  shard : String
deriving DecidableEq, Repr

/-- `upload.SingleUpload` (types.go:30-35).  `time.Time` values are
modelled as `Int` instants; headers as association lists in insertion
order. -/
structure SingleUpload where
  method : String
  url : String
  headers : List (String × String)
  expiresAt : Int
deriving DecidableEq, Repr

/-- `upload.UploadAction` (types.go:48-53). -/
structure UploadAction where
  method : String
  url : String
  headers : List (String × String)
  expiresAt : Int
deriving DecidableEq, Repr

/-- `upload.PartUpload` (types.go:56-62). -/
structure PartUpload where
  partNumber : Nat
  method : String
  url : String
  headers : List (String × String)
  expiresAt : Int
deriving DecidableEq, Repr

/-- `upload.MultipartUpload` (types.go:38-45).  The `Create`,
`Complete` and `Abort` pointer fields are `Option`s (`nil` = `none`). -/
structure MultipartUpload where
  uploadID : String
  partSize : Int
  create : Option UploadAction
  parts : List PartUpload
  complete : Option UploadAction
  abort : Option UploadAction
deriving DecidableEq, Repr

/-- `upload.UploadDetails` (types.go:24-27). -/
structure UploadDetails where
  single : Option SingleUpload
  multipart : Option MultipartUpload
deriving DecidableEq, Repr

/-- `upload.PresignResponse` (types.go:18-21). -/
structure PresignResponse where
  objectKey : String
  upload : UploadDetails
deriving DecidableEq, Repr

/-! ### Object storage client (`interfaces.go`)

The three `S3Client` methods the presign path uses are modelled as one
response function over a call datatype; the `ctx` and `expires`
arguments (pure plumbing, unobserved by the claims) are not part of a
call's identity.  The service functions additionally return the list
of calls they issued, in order, so that side-effect claims are
statable. -/

inductive Call where
  | createMultipartUpload (key : String) (headers : List (String × String))
  | presignPutObject (key : String) (headers : List (String × String))
  | presignUploadPart (key uploadID : String) (partNumber : Nat)
deriving DecidableEq, Repr

/-- An object-storage client: a response (or error) for every call. -/
def S3Client := Call → Except String String

/-! ### `service.go` orchestration -/

/-- Models `int(math.Ceil(float64(a) / float64(b)))` as the exact
rational ceiling `⌈a / b⌉`, computed as `-⌊-a / b⌋` (exact for
magnitudes below `2 ^ 53`, i.e. for the whole realistic `int64`
configuration range).  `ceilDiv_eq_rat_ceil` below proves it equal to
the ceiling of the true quotient. -/
def ceilDiv (a b : Int) : Int := -((-a) / b)

/-- The part-presign loop of `createUploadDetails`
(service.go:169-184): part numbers `i + 1 .. i + n` in order, each a
`PUT` carrying the base headers; the first failing presign aborts with
the wrapping error and nothing is returned.  Also returns the calls
issued. -/
def presignParts (client : S3Client) (objectKey uploadID : String)
    (headers : List (String × String)) (expiresAt : Int) :
    Nat → Nat → Except String (List PartUpload) × List Call
  | _, 0 => (.ok [], [])
  | i, n + 1 =>
    let partNumber := i + 1
    let call := Call.presignUploadPart objectKey uploadID partNumber
    match client call with
    | .error e =>
      (.error ("failed to presign part " ++ toString partNumber ++ ": " ++ e), [call])
    | .ok url =>
      let (res, calls) := presignParts client objectKey uploadID headers expiresAt (i + 1) n
      (res.map (fun rest =>
        { partNumber := partNumber, method := "PUT", url := url,
          headers := headers, expiresAt := expiresAt } :: rest),
       call :: calls)

/-- `Service.createUploadDetails` (service.go:127-195).  The single
path copies the headers and adds `If-None-Match: *`; the multipart
path creates the upload session, computes the part count (ceiling
division, clamped to 100) and presigns each part.  The returned
`MultipartUpload` leaves `create`, `complete` and `abort` at `none`,
exactly as the Go code leaves those pointer fields `nil`
(service.go:186-194). -/
def createUploadDetails (client : S3Client) (strategy objectKey : String)
    (headers : List (String × String)) (expiresAt : Int)
    (partSizeMB totalSizeBytes : Int) :
    Except String UploadDetails × List Call :=
  if strategy = "single" then
    let singleHeaders := headers ++ [("If-None-Match", "*")]
    let call := Call.presignPutObject objectKey singleHeaders
    match client call with
    | .error e => (.error e, [call])
    | .ok url =>
      (.ok { single := some { method := "PUT", url := url,
                              headers := singleHeaders, expiresAt := expiresAt },
             multipart := none }, [call])
  else
    let createCall := Call.createMultipartUpload objectKey headers
    match client createCall with
    | .error e => (.error ("failed to create multipart upload: " ++ e), [createCall])
    | .ok uploadID =>
      let partSizeBytes := partSizeMB * 1024 * 1024
      let computed := ceilDiv totalSizeBytes partSizeBytes
      let numParts := if computed > 100 then 100 else computed
      let (res, calls) := presignParts client objectKey uploadID headers expiresAt 0 numParts.toNat
      match res with
      | .error e => (.error e, createCall :: calls)
      | .ok parts =>
        (.ok { single := none,
               multipart := some { uploadID := uploadID, partSize := partSizeBytes,
                                   create := none, parts := parts,
                                   complete := none, abort := none } },
         createCall :: calls)

/-- The shard actually used by `PresignUpload` (service.go:38-42):
the request's shard, or, when that is empty and the profile enables
sharding, the generated shard. -/
def effectiveShard (reqShard : String) (enableSharding : Bool) (keyBase : String) : String :=
  if reqShard = "" ∧ enableSharding then GenerateShard keyBase else reqShard

/-- `Service.PresignUpload` (service.go:27-64).  `now` models
`time.Now()`; validation errors are returned before any storage call
(empty call list). -/
def PresignUpload (client : S3Client) (req : PresignRequest) (profile : Profile)
    (now : Int) : Except String PresignResponse × List Call :=
  if ¬ isMimeAllowed req.mime profile.allowedMimes then
    (.error ("mime type not allowed: " ++ req.mime), [])
  else if req.sizeBytes > profile.sizeMaxBytes then
    (.error ("file size exceeds maximum: " ++ toString req.sizeBytes ++ " > " ++
             toString profile.sizeMaxBytes), [])
  else
    let shard := effectiveShard req.shard profile.enableSharding req.keyBase
    let objectKey := buildObjectKey profile.storagePath req.keyBase req.ext shard
    let strategy := determineStrategy req.multipart req.sizeBytes profile.multipartThresholdMB
    let headers := buildRequiredHeaders req.mime
    let expiresAt := now + profile.tokenTTLSeconds
    match createUploadDetails client strategy objectKey headers expiresAt
        profile.partSizeMB req.sizeBytes with
    | (.error e, calls) => (.error ("failed to create upload details: " ++ e), calls)
    | (.ok details, calls) => (.ok { objectKey := objectKey, upload := details }, calls)

/-! ### Helper lemmas -/

/-- `ceilDiv` is the ceiling of the exact rational quotient. -/
theorem ceilDiv_eq_rat_ceil (a b : Int) (hb : 0 < b) :
    ceilDiv a b = ⌈(a : ℚ) / (b : ℚ)⌉ := by
  have hb' : (b.toNat : ℤ) = b := Int.toNat_of_nonneg hb.le
  have h := Rat.floor_intCast_div_natCast (-a) b.toNat
  rw [hb'] at h
  have hq : ((b.toNat : ℕ) : ℚ) = (b : ℚ) := by
    exact_mod_cast congrArg (Int.cast : ℤ → ℚ) hb'
  rw [hq] at h
  have hcast : (((-a : ℤ)) : ℚ) = -(a : ℚ) := by push_cast; ring
  rw [hcast, neg_div, Int.floor_neg] at h
  unfold ceilDiv
  omega

/-- `isMimeAllowed` is exact, case-sensitive list membership. -/
theorem isMimeAllowed_iff_mem (mime : String) (allowedMimes : List String) :
    isMimeAllowed mime allowedMimes = true ↔ mime ∈ allowedMimes := by
  simp only [isMimeAllowed, List.any_eq_true, beq_iff_eq]
  constructor
  · rintro ⟨a, ha, rfl⟩; exact ha
  · intro h; exact ⟨mime, h, rfl⟩

/-- A successful part-presign loop returns exactly `n` parts, numbered
`i + 1 .. i + n` in order, each a `PUT` with the base headers and the
plan expiry. -/
theorem presignParts_ok (client : S3Client) (key id : String)
    (hdrs : List (String × String)) (e : Int) :
    ∀ (n i : Nat) (l : List PartUpload) (calls : List Call),
      presignParts client key id hdrs e i n = (.ok l, calls) →
      l.length = n ∧
      ∀ j (hj : j < l.length),
        (l.get ⟨j, hj⟩).partNumber = i + j + 1 ∧
        (l.get ⟨j, hj⟩).method = "PUT" ∧
        (l.get ⟨j, hj⟩).headers = hdrs ∧
        (l.get ⟨j, hj⟩).expiresAt = e := by
  intro n
  induction n with
  | zero =>
    intro i l calls h
    simp only [presignParts, Prod.mk.injEq] at h
    obtain ⟨h1, _⟩ := h
    cases h1
    exact ⟨rfl, fun j hj => absurd hj (by simp)⟩
  | succ n ih =>
    intro i l calls h
    rw [presignParts] at h
    cases hc : client (Call.presignUploadPart key id (i + 1)) with
    | error msg => rw [hc] at h; simp at h
    | ok url =>
      rw [hc] at h
      cases hrec : presignParts client key id hdrs e (i + 1) n with
      | mk res callsRec =>
        rw [hrec] at h
        cases res with
        | error msg => simp [Except.map] at h
        | ok rest =>
          simp only [Except.map, Prod.mk.injEq, Except.ok.injEq] at h
          obtain ⟨h1, _⟩ := h
          obtain ⟨ihlen, ihspec⟩ := ih (i + 1) rest callsRec hrec
          cases h1
          refine ⟨by simp [ihlen], ?_⟩
          intro j hj
          match j with
          | 0 => exact ⟨rfl, rfl, rfl, rfl⟩
          | Nat.succ j =>
            have hj' : j < rest.length := by simpa using hj
            obtain ⟨hn, hm, hh, he⟩ := ihspec j hj'
            refine ⟨?_, hm, hh, he⟩
            simpa [Nat.add_assoc, Nat.add_comm, Nat.add_left_comm] using hn

/-- If any part in the range fails to presign, the whole loop returns
an error (partial part lists are never returned). -/
theorem presignParts_error_of_fail (client : S3Client) (key id : String)
    (hdrs : List (String × String)) (e : Int) :
    ∀ (n i : Nat),
      (∃ j, j < n ∧ ∃ msg, client (.presignUploadPart key id (i + j + 1)) = .error msg) →
      ∃ err, (presignParts client key id hdrs e i n).1 = .error err := by
  intro n
  induction n with
  | zero =>
    intro i ⟨j, hj, _⟩
    exact absurd hj (by simp)
  | succ n ih =>
    intro i ⟨j, hj, msg, hmsg⟩
    rw [presignParts]
    cases hc : client (Call.presignUploadPart key id (i + 1)) with
    | error m => exact ⟨_, rfl⟩
    | ok url =>
      match j with
      | 0 => rw [show i + 0 + 1 = i + 1 by omega, hc] at hmsg; cases hmsg
      | Nat.succ j =>
        have hmsg' : client (.presignUploadPart key id ((i + 1) + j + 1)) = .error msg := by
          rw [show (i + 1) + j + 1 = i + (j + 1) + 1 by omega]; exact hmsg
        obtain ⟨err, herr⟩ := ih (i + 1) ⟨j, by omega, msg, hmsg'⟩
        cases hrec : presignParts client key id hdrs e (i + 1) n with
        | mk res callsRec =>
          rw [hrec] at herr
          simp only at herr
          cases res with
          | error m => exact ⟨m, by simp [hrec, Except.map]⟩
          | ok rest => cases herr

/-- Against a client whose calls all succeed, the part-presign loop
succeeds. -/
theorem presignParts_ok_total (client : S3Client) (key id : String)
    (hdrs : List (String × String)) (e : Int)
    (hclient : ∀ c, ∃ s, client c = .ok s) :
    ∀ (n i : Nat), ∃ l calls, presignParts client key id hdrs e i n = (.ok l, calls) := by
  intro n
  induction n with
  | zero => intro i; exact ⟨[], [], rfl⟩
  | succ n ih =>
    intro i
    obtain ⟨url, hurl⟩ := hclient (.presignUploadPart key id (i + 1))
    obtain ⟨l, calls, hrec⟩ := ih (i + 1)
    refine ⟨{ partNumber := i + 1, method := "PUT", url := url,
              headers := hdrs, expiresAt := e } :: l,
            Call.presignUploadPart key id (i + 1) :: calls, ?_⟩
    rw [presignParts, hurl, hrec]
    rfl

/-- Structure of a successfully built multipart plan: no single
descriptor, `ceil`-derived part count clamped to 100, parts numbered
`1 .. N` in order, each a `PUT` with the base headers. -/
theorem createUploadDetails_multipart_ok (client : S3Client) (strategy key : String)
    (hdrs : List (String × String)) (e p t : Int)
    (d : UploadDetails) (calls : List Call)
    (hstrat : strategy ≠ "single")
    (h : createUploadDetails client strategy key hdrs e p t = (.ok d, calls)) :
    d.single = none ∧
    ∃ mp, d.multipart = some mp ∧
      mp.partSize = p * 1024 * 1024 ∧
      mp.parts.length = min (ceilDiv t (p * 1024 * 1024)).toNat 100 ∧
      ∀ j (hj : j < mp.parts.length),
        (mp.parts.get ⟨j, hj⟩).partNumber = j + 1 ∧
        (mp.parts.get ⟨j, hj⟩).method = "PUT" ∧
        (mp.parts.get ⟨j, hj⟩).headers = hdrs ∧
        (mp.parts.get ⟨j, hj⟩).expiresAt = e := by
  rw [createUploadDetails, if_neg hstrat] at h
  dsimp only at h
  cases hc : client (Call.createMultipartUpload key hdrs) with
  | error msg => rw [hc] at h; simp at h
  | ok uploadID =>
    rw [hc] at h
    dsimp only at h
    cases hp : presignParts client key uploadID hdrs e 0
        (if ceilDiv t (p * 1024 * 1024) > 100 then 100
         else ceilDiv t (p * 1024 * 1024)).toNat with
    | mk res callsRec =>
      rw [hp] at h
      dsimp only at h
      cases res with
      | error msg => simp at h
      | ok parts =>
        simp only [Prod.mk.injEq, Except.ok.injEq] at h
        obtain ⟨h1, _⟩ := h
        cases h1
        obtain ⟨hlen, hspec⟩ := presignParts_ok client key uploadID hdrs e _ _ _ _ hp
        refine ⟨rfl, _, rfl, rfl, ?_, ?_⟩
        · dsimp only
          rw [hlen]
          by_cases hbig : ceilDiv t (p * 1024 * 1024) > 100
          · rw [if_pos hbig]; omega
          · rw [if_neg hbig]; omega
        · dsimp only
          intro j hj
          obtain ⟨hn, hm, hh, he⟩ := hspec j hj
          exact ⟨by omega, hm, hh, he⟩

/-- Against a client whose calls all succeed, `createUploadDetails`
succeeds for any strategy. -/
theorem createUploadDetails_ok_total (client : S3Client) (strategy key : String)
    (hdrs : List (String × String)) (e p t : Int)
    (hclient : ∀ c, ∃ s, client c = .ok s) :
    ∃ d calls, createUploadDetails client strategy key hdrs e p t = (.ok d, calls) := by
  rw [createUploadDetails]
  by_cases hs : strategy = "single"
  · rw [if_pos hs]
    dsimp only
    obtain ⟨url, hurl⟩ := hclient (.presignPutObject key (hdrs ++ [("If-None-Match", "*")]))
    rw [hurl]
    exact ⟨_, _, rfl⟩
  · rw [if_neg hs]
    dsimp only
    obtain ⟨uploadID, hid⟩ := hclient (.createMultipartUpload key hdrs)
    rw [hid]
    dsimp only
    obtain ⟨l, calls, hp⟩ := presignParts_ok_total client key uploadID hdrs e hclient
      (if ceilDiv t (p * 1024 * 1024) > 100 then 100
       else ceilDiv t (p * 1024 * 1024)).toNat 0
    rw [hp]
    exact ⟨_, _, rfl⟩

/-- If the multipart session is created but some part in range fails
to presign, `createUploadDetails` returns an error (never a partial
plan). -/
theorem createUploadDetails_error_of_part_fail (client : S3Client)
    (strategy key : String) (hdrs : List (String × String)) (e p t : Int)
    (uploadID : String)
    (hstrat : strategy ≠ "single")
    (hcreate : client (.createMultipartUpload key hdrs) = .ok uploadID)
    (hfail : ∃ j, j < min (ceilDiv t (p * 1024 * 1024)).toNat 100 ∧
      ∃ msg, client (.presignUploadPart key uploadID (j + 1)) = .error msg) :
    ∃ err, (createUploadDetails client strategy key hdrs e p t).1 = .error err := by
  rw [createUploadDetails, if_neg hstrat]
  dsimp only
  rw [hcreate]
  dsimp only
  obtain ⟨j, hj, msg, hmsg⟩ := hfail
  have hminEq : (if ceilDiv t (p * 1024 * 1024) > 100 then 100
      else ceilDiv t (p * 1024 * 1024)).toNat =
      min (ceilDiv t (p * 1024 * 1024)).toNat 100 := by
    by_cases hbig : ceilDiv t (p * 1024 * 1024) > 100
    · rw [if_pos hbig]; omega
    · rw [if_neg hbig]; omega
  obtain ⟨err, herr⟩ := presignParts_error_of_fail client key uploadID hdrs e
    ((if ceilDiv t (p * 1024 * 1024) > 100 then 100
      else ceilDiv t (p * 1024 * 1024)).toNat) 0
    ⟨j, by rw [hminEq]; exact hj, msg,
      by rw [show 0 + j + 1 = j + 1 by omega]; exact hmsg⟩
  cases hp : presignParts client key uploadID hdrs e 0
      ((if ceilDiv t (p * 1024 * 1024) > 100 then 100
        else ceilDiv t (p * 1024 * 1024)).toNat) with
  | mk res callsRec =>
    rw [hp] at herr
    dsimp only at herr
    dsimp only
    rw [herr]
    exact ⟨err, rfl⟩

/-- Unfolding of `PresignUpload` once both validations pass. -/
theorem PresignUpload_valid (client : S3Client) (req : PresignRequest)
    (profile : Profile) (now : Int)
    (hm : req.mime ∈ profile.allowedMimes)
    (hs : req.sizeBytes ≤ profile.sizeMaxBytes) :
    PresignUpload client req profile now =
      match createUploadDetails client
          (determineStrategy req.multipart req.sizeBytes profile.multipartThresholdMB)
          (buildObjectKey profile.storagePath req.keyBase req.ext
            (effectiveShard req.shard profile.enableSharding req.keyBase))
          (buildRequiredHeaders req.mime) (now + profile.tokenTTLSeconds)
          profile.partSizeMB req.sizeBytes with
      | (.error e, calls) => (.error ("failed to create upload details: " ++ e), calls)
      | (.ok details, calls) =>
        (.ok { objectKey := buildObjectKey profile.storagePath req.keyBase req.ext
                 (effectiveShard req.shard profile.enableSharding req.keyBase),
               upload := details }, calls) := by
  rw [PresignUpload,
    if_neg (not_not_intro ((isMimeAllowed_iff_mem _ _).mpr hm)),
    if_neg (not_lt.mpr hs)]

/-! ### Concrete fixtures (profiles, requests and clients from
`service_test.go`) used to exercise the theorems -/

/-- A client whose calls all succeed, mirroring `MockS3Client` with the
default responses. -/
def okClient : S3Client := fun c =>
  match c with
  | .createMultipartUpload _ _ => .ok "test-upload-id"
  | .presignPutObject key _ => .ok ("https://s3/" ++ key)
  | .presignUploadPart key _ partNumber =>
    .ok ("https://s3/" ++ key ++ "?part=" ++ toString partNumber)

theorem okClient_total : ∀ c, ∃ s, okClient c = .ok s := by
  intro c
  cases c with
  | createMultipartUpload key hdrs => exact ⟨_, rfl⟩
  | presignPutObject key hdrs => exact ⟨_, rfl⟩
  | presignUploadPart key id partNumber => exact ⟨_, rfl⟩

/-- A client whose part-presign calls all fail. -/
def failPartClient : S3Client := fun c =>
  match c with
  | .presignUploadPart _ _ _ => .error "part boom"
  | _ => .ok "ok"

/-- The single-upload test profile of
`TestService_PresignUpload_SingleStrategy`. -/
def profSingle : Profile :=
  { kind := "image", allowedMimes := ["image/jpeg"],
    sizeMaxBytes := 5 * 1024 * 1024, multipartThresholdMB := 15,
    partSizeMB := 8, tokenTTLSeconds := 900,
    storagePath := "originals/\x7bkey_base\x7d.\x7bext\x7d",
    enableSharding := false }

/-- The validation test profile of
`TestService_PresignUpload_Validation`. -/
def profAvatar : Profile :=
  { kind := "image", allowedMimes := ["image/jpeg", "image/png"],
    sizeMaxBytes := 5 * 1024 * 1024, multipartThresholdMB := 15,
    partSizeMB := 8, tokenTTLSeconds := 900,
    storagePath := "originals/\x7bshard?\x7d/\x7bkey_base\x7d.\x7bext\x7d",
    enableSharding := true }

/-- The multipart test profile of
`TestService_PresignUpload_MultipartStrategy`. -/
def profVideo : Profile :=
  { kind := "video", allowedMimes := ["video/mp4"],
    sizeMaxBytes := 100 * 1024 * 1024, multipartThresholdMB := 15,
    partSizeMB := 8, tokenTTLSeconds := 900,
    storagePath := "originals/\x7bkey_base\x7d.\x7bext\x7d",
    enableSharding := false }

/-- A valid 1MB JPEG request. -/
def reqJpeg : PresignRequest :=
  { keyBase := "test-key", ext := "jpg", mime := "image/jpeg",
    sizeBytes := 1024 * 1024, kind := "image", profileName := "avatar",
    multipart := "auto", shard := "" }

/-- A request with a disallowed MIME type. -/
def reqText : PresignRequest :=
  { keyBase := "test-key", ext := "txt", mime := "text/plain",
    sizeBytes := 1024000, kind := "image", profileName := "avatar",
    multipart := "auto", shard := "" }

/-- A 10MB JPEG request, exceeding the 5MB cap. -/
def reqBig : PresignRequest :=
  { keyBase := "test-key", ext := "jpg", mime := "image/jpeg",
    sizeBytes := 10 * 1024 * 1024, kind := "image", profileName := "avatar",
    multipart := "auto", shard := "" }

/-- The 50MB video request of
`TestService_PresignUpload_MultipartStrategy`. -/
def req50 : PresignRequest :=
  { keyBase := "test-video", ext := "mp4", mime := "video/mp4",
    sizeBytes := 50 * 1024 * 1024, kind := "video", profileName := "video",
    multipart := "auto", shard := "" }

/-! ### Claim theorems -/

set_option maxRecDepth 100000

/-- Claim C2: for every mode string, size in bytes and threshold in MB,
the strategy selector returns `multipart` when the mode is `force`,
`single` when it is `off`, and for `auto` or any other value (including
the empty string) returns `multipart` iff
`sizeBytes > thresholdMB * 1024 * 1024` and `single` otherwise; a size
exactly equal to the threshold yields `single`. -/
theorem determineStrategy_decision_table :
    ∀ (mode : String) (sizeBytes thresholdMB : Int),
      (mode = "force" → determineStrategy mode sizeBytes thresholdMB = "multipart") ∧
      (mode = "off" → determineStrategy mode sizeBytes thresholdMB = "single") ∧
      (mode ≠ "force" → mode ≠ "off" →
        (determineStrategy mode sizeBytes thresholdMB = "multipart" ↔
          sizeBytes > thresholdMB * 1024 * 1024) ∧
        (determineStrategy mode sizeBytes thresholdMB = "single" ↔
          ¬ sizeBytes > thresholdMB * 1024 * 1024) ∧
        determineStrategy mode (thresholdMB * 1024 * 1024) thresholdMB = "single") := by
  intro mode sizeBytes thresholdMB
  refine ⟨?_, ?_, ?_⟩
  · intro h; subst h; rfl
  · intro h; subst h; rfl
  · intro hf ho
    unfold determineStrategy
    rw [if_neg hf, if_neg ho, if_neg hf, if_neg ho,
      if_neg (lt_irrefl (thresholdMB * 1024 * 1024))]
    by_cases hgt : sizeBytes > thresholdMB * 1024 * 1024
    · rw [if_pos hgt]
      exact ⟨⟨fun _ => hgt, fun _ => rfl⟩,
             ⟨fun h => absurd h (by decide), fun hn => absurd hgt hn⟩, rfl⟩
    · rw [if_neg hgt]
      exact ⟨⟨fun h => absurd h (by decide), fun hg => absurd hg hgt⟩,
             ⟨fun _ => hgt, fun _ => rfl⟩, rfl⟩

/-- Witness for C2: the five concrete selections listed in the spec,
plus a size exactly at the threshold. -/
theorem determineStrategy_decision_table_witness :
    determineStrategy "force" 1 15 = "multipart" ∧
    determineStrategy "off" 50000000 15 = "single" ∧
    determineStrategy "auto" (10 * 1024 * 1024) 15 = "single" ∧
    determineStrategy "auto" (20 * 1024 * 1024) 15 = "multipart" ∧
    determineStrategy "" (20 * 1024 * 1024) 15 = "multipart" ∧
    determineStrategy "auto" (15 * 1024 * 1024) 15 = "single" :=
  ⟨(determineStrategy_decision_table "force" 1 15).1 rfl,
   (determineStrategy_decision_table "off" 50000000 15).2.1 rfl,
   ((determineStrategy_decision_table "auto" (10 * 1024 * 1024) 15).2.2
      (by decide) (by decide)).2.1.mpr (by decide),
   ((determineStrategy_decision_table "auto" (20 * 1024 * 1024) 15).2.2
      (by decide) (by decide)).1.mpr (by decide),
   ((determineStrategy_decision_table "" (20 * 1024 * 1024) 15).2.2
      (by decide) (by decide)).1.mpr (by decide),
   ((determineStrategy_decision_table "auto" (15 * 1024 * 1024) 15).2.2
      (by decide) (by decide)).2.2⟩

/-- Claim C3: the object key builder substitutes the placeholders; a
non-empty shard replaces both `\x7bshard?\x7d` and `\x7bshard\x7d`; an
empty shard removes the optional placeholder together with one
adjacent path separator, leaving no empty path segment; malformed
templates keep their unresolved placeholders literally; and the two
spec examples hold.  (Totality, purity and determinism hold by
construction: `buildObjectKey` is a Lean function of its four string
arguments.) -/
theorem buildObjectKey_template_examples :
    buildObjectKey "originals/\x7bshard?\x7d/\x7bkey_base\x7d.\x7bext\x7d"
      "test-key" "jpg" "ab" = "originals/ab/test-key.jpg" ∧
    buildObjectKey "originals/\x7bshard?\x7d/\x7bkey_base\x7d.\x7bext\x7d"
      "test-key" "jpg" "" = "originals/test-key.jpg" ∧
    buildObjectKey "\x7bkey_base\x7d.\x7bext\x7d" "test-key" "mp4" "" = "test-key.mp4" ∧
    buildObjectKey "a/\x7bshard\x7d/\x7bshard?\x7d/\x7bkey_base\x7d.\x7bext\x7d"
      "k" "e" "ff" = "a/ff/ff/k.e" ∧
    buildObjectKey "media/\x7bunknown\x7d/\x7bkey_base\x7d.\x7bext\x7d"
      "k" "png" "" = "media/\x7bunknown\x7d/k.png" := by
  refine ⟨?_, ?_, ?_, ?_, ?_⟩ <;> decide

/-- A lowercase hexadecimal digit. -/
def isLowerHexDigit (c : Char) : Bool :=
  (decide ('0' ≤ c) && decide (c ≤ '9')) || (decide ('a' ≤ c) && decide (c ≤ 'f'))

theorem hexChar_isLowerHexDigit : ∀ n, n < 16 → isLowerHexDigit (hexChar n) = true := by
  decide

/-- Claim C4: for every `key_base` string, including the empty string,
`GenerateShard` is deterministic and returns exactly two lowercase
hexadecimal characters rendering the first byte of the SHA-1 digest of
the UTF-8 bytes of `key_base`.  The digest vectors pin the embedded
SHA-1 to the real one in every padding regime: the empty message
(`"da"`, as in `TestGenerateShard`), a 40-byte message (length field in
the same padding block), and the 56-byte two-block NIST test vector. -/
theorem generateShard_two_lowercase_hex :
    ∀ keyBase : String,
      (GenerateShard keyBase).length = 2 ∧
      (∀ c ∈ (GenerateShard keyBase).data, isLowerHexDigit c = true) ∧
      (∀ other : String, keyBase = other → GenerateShard keyBase = GenerateShard other) ∧
      GenerateShard "" = "da" ∧
      GenerateShard "aaaaaaaaaaaaaaaaaaaaaaaaaaaaaaaaaaaaaaaa" = "a5" ∧
      GenerateShard "abcdbcdecdefdefgefghfghighijhijkijkljklmklmnlmnomnopnopq" = "84" := by
  intro keyBase
  refine ⟨rfl, ?_, fun other h => h ▸ rfl, by decide, by decide, by decide⟩
  intro c hc
  have h16 : ∀ x : Nat, x % 16 < 16 := fun x => Nat.mod_lt x (by norm_num)
  simp only [GenerateShard, byteToHex, List.mem_cons, List.not_mem_nil, or_false] at hc
  rcases hc with h | h
  · exact h ▸ hexChar_isLowerHexDigit _ (h16 _)
  · exact h ▸ hexChar_isLowerHexDigit _ (h16 _)

/-- Witness for C4: the length, hex-character and determinism facts at
the empty string, whose shard is `"da"` (matching `TestGenerateShard`),
and the 40-byte long-regime digest vector. -/
theorem generateShard_two_lowercase_hex_witness :
    (GenerateShard "").length = 2 ∧
    isLowerHexDigit 'd' = true ∧
    GenerateShard "" = "da" ∧
    GenerateShard "aaaaaaaaaaaaaaaaaaaaaaaaaaaaaaaaaaaaaaaa" = "a5" :=
  ⟨(generateShard_two_lowercase_hex "").1,
   (generateShard_two_lowercase_hex "").2.1 'd' (by decide),
   (generateShard_two_lowercase_hex "").2.2.2.1,
   (generateShard_two_lowercase_hex "").2.2.2.2.1⟩

/-- Claim C6: MIME validation is exact case-sensitive membership in
the profile's allowlist (no wildcards, no normalization), and when no
element matches, `PresignUpload` returns the MIME-not-allowed error
(before anything else happens). -/
theorem presign_rejects_disallowed_mime :
    ∀ (client : S3Client) (req : PresignRequest) (profile : Profile) (now : Int),
      (isMimeAllowed req.mime profile.allowedMimes = true ↔
        req.mime ∈ profile.allowedMimes) ∧
      (req.mime ∉ profile.allowedMimes →
        PresignUpload client req profile now =
          (.error ("mime type not allowed: " ++ req.mime), [])) := by
  intro client req profile now
  refine ⟨isMimeAllowed_iff_mem _ _, ?_⟩
  intro hnm
  rw [PresignUpload, if_pos (fun h => hnm ((isMimeAllowed_iff_mem _ _).mp h))]

/-- Witness for C6: `text/plain` against the avatar profile fails with
the exact error of `TestService_PresignUpload_Validation`. -/
theorem presign_rejects_disallowed_mime_witness :
    PresignUpload okClient reqText profAvatar 0 =
      (.error "mime type not allowed: text/plain", []) :=
  ((presign_rejects_disallowed_mime okClient reqText profAvatar 0).2
    (by decide)).trans (by decide)

/-- Claim C7: with an allowed MIME, `PresignUpload` fails iff
`size_bytes` strictly exceeds the profile's maximum (a request exactly
at the maximum is accepted), and the error text carries both the
requested and the maximum byte counts. -/
theorem presign_size_validation :
    ∀ (client : S3Client) (req : PresignRequest) (profile : Profile) (now : Int),
      req.mime ∈ profile.allowedMimes →
      (req.sizeBytes > profile.sizeMaxBytes →
        PresignUpload client req profile now =
          (.error ("file size exceeds maximum: " ++ toString req.sizeBytes ++
                   " > " ++ toString profile.sizeMaxBytes), [])) ∧
      (req.sizeBytes ≤ profile.sizeMaxBytes → (∀ c, ∃ s, client c = .ok s) →
        ∃ resp calls, PresignUpload client req profile now = (.ok resp, calls)) := by
  intro client req profile now hm
  constructor
  · intro hgt
    rw [PresignUpload,
      if_neg (not_not_intro ((isMimeAllowed_iff_mem _ _).mpr hm)), if_pos hgt]
  · intro hle hclient
    rw [PresignUpload_valid client req profile now hm hle]
    obtain ⟨d, calls, hd⟩ := createUploadDetails_ok_total client
      (determineStrategy req.multipart req.sizeBytes profile.multipartThresholdMB)
      (buildObjectKey profile.storagePath req.keyBase req.ext
        (effectiveShard req.shard profile.enableSharding req.keyBase))
      (buildRequiredHeaders req.mime) (now + profile.tokenTTLSeconds)
      profile.partSizeMB req.sizeBytes hclient
    rw [hd]
    exact ⟨_, _, rfl⟩

/-- Witness for C7: 10MB against the 5MB avatar cap fails with the
exact error text of `TestService_PresignUpload_Validation` (both byte
counts rendered); 1MB (below the cap) is accepted against a client
whose calls succeed. -/
theorem presign_size_validation_witness :
    PresignUpload okClient reqBig profAvatar 0 =
      (.error "file size exceeds maximum: 10485760 > 5242880", []) ∧
    ∃ resp calls, PresignUpload okClient reqJpeg profSingle 0 = (.ok resp, calls) :=
  ⟨((presign_size_validation okClient reqBig profAvatar 0 (by decide)).1
      (by decide)).trans (by decide),
   (presign_size_validation okClient reqJpeg profSingle 0 (by decide)).2
     (by decide) okClient_total⟩

/-- Claim C9: a validated request resolved to the single strategy, for
which presigning succeeds, yields a plan whose `Single` descriptor has
method `PUT`, the presigned URL, and the base `Content-Type` header
augmented with the conditional-write header `If-None-Match: *`; the
plan carries the object key built from the template. -/
theorem presign_single_plan_shape :
    ∀ (client : S3Client) (req : PresignRequest) (profile : Profile)
      (now : Int) (url : String),
      req.mime ∈ profile.allowedMimes →
      req.sizeBytes ≤ profile.sizeMaxBytes →
      determineStrategy req.multipart req.sizeBytes profile.multipartThresholdMB = "single" →
      client (.presignPutObject
        (buildObjectKey profile.storagePath req.keyBase req.ext
          (effectiveShard req.shard profile.enableSharding req.keyBase))
        [("Content-Type", req.mime), ("If-None-Match", "*")]) = .ok url →
      PresignUpload client req profile now =
        (.ok { objectKey := buildObjectKey profile.storagePath req.keyBase req.ext
                 (effectiveShard req.shard profile.enableSharding req.keyBase),
               upload := { single := some
                             { method := "PUT", url := url,
                               headers := [("Content-Type", req.mime), ("If-None-Match", "*")],
                               expiresAt := now + profile.tokenTTLSeconds },
                           multipart := none } },
         [Call.presignPutObject
            (buildObjectKey profile.storagePath req.keyBase req.ext
              (effectiveShard req.shard profile.enableSharding req.keyBase))
            [("Content-Type", req.mime), ("If-None-Match", "*")]]) := by
  intro client req profile now url hm hle hstrat hurl
  rw [PresignUpload_valid client req profile now hm hle, hstrat,
    createUploadDetails, if_pos rfl]
  dsimp only [buildRequiredHeaders]
  rw [show [("Content-Type", req.mime)] ++ [("If-None-Match", "*")] =
      [("Content-Type", req.mime), ("If-None-Match", "*")] from rfl, hurl]

/-- Witness for C9: the concrete single-strategy scenario of
`TestService_PresignUpload_SingleStrategy`, with its non-empty object
key `originals/test-key.jpg`. -/
theorem presign_single_plan_shape_witness :
    PresignUpload okClient reqJpeg profSingle 0 =
      (.ok { objectKey := "originals/test-key.jpg",
             upload := { single := some
                           { method := "PUT",
                             url := "https://s3/originals/test-key.jpg",
                             headers := [("Content-Type", "image/jpeg"), ("If-None-Match", "*")],
                             expiresAt := 900 },
                         multipart := none } },
       [Call.presignPutObject "originals/test-key.jpg"
          [("Content-Type", "image/jpeg"), ("If-None-Match", "*")]]) ∧
    "originals/test-key.jpg" ≠ "" :=
  ⟨(presign_single_plan_shape okClient reqJpeg profSingle 0
      "https://s3/originals/test-key.jpg"
      (by decide) (by decide) (by decide) (by decide)).trans (by decide),
   by decide⟩

/-- Claim C10: shard precedence.  A non-empty request shard is used
verbatim (independently of the key base, i.e. without consulting the
generator); the generator's output is used exactly when the request
shard is empty and the profile enables sharding; with an empty shard
and sharding disabled the key is built with the empty shard; and every
successful response's object key is built from the template with the
shard resolved by this precedence. -/
theorem shard_precedence :
    ∀ (client : S3Client) (req : PresignRequest) (profile : Profile)
      (now : Int) (resp : PresignResponse),
      ((PresignUpload client req profile now).1 = .ok resp →
        resp.objectKey = buildObjectKey profile.storagePath req.keyBase req.ext
          (effectiveShard req.shard profile.enableSharding req.keyBase)) ∧
      (req.shard ≠ "" →
        effectiveShard req.shard profile.enableSharding req.keyBase = req.shard) ∧
      (∀ k1 k2 : String, req.shard ≠ "" →
        effectiveShard req.shard profile.enableSharding k1 =
          effectiveShard req.shard profile.enableSharding k2) ∧
      (req.shard = "" → profile.enableSharding = true →
        effectiveShard req.shard profile.enableSharding req.keyBase =
          GenerateShard req.keyBase) ∧
      (req.shard = "" → profile.enableSharding = false →
        effectiveShard req.shard profile.enableSharding req.keyBase = "" ∧
        buildObjectKey profile.storagePath req.keyBase req.ext
          (effectiveShard req.shard profile.enableSharding req.keyBase) =
          buildObjectKey profile.storagePath req.keyBase req.ext "") := by
  intro client req profile now resp
  refine ⟨?_, ?_, ?_, ?_, ?_⟩
  · intro h
    by_cases hm : isMimeAllowed req.mime profile.allowedMimes = true
    · by_cases hsz : req.sizeBytes > profile.sizeMaxBytes
      · rw [PresignUpload, if_neg (not_not_intro hm), if_pos hsz] at h
        cases h
      · rw [PresignUpload_valid client req profile now
          ((isMimeAllowed_iff_mem _ _).mp hm) (not_lt.mp hsz)] at h
        cases hcd : createUploadDetails client
            (determineStrategy req.multipart req.sizeBytes profile.multipartThresholdMB)
            (buildObjectKey profile.storagePath req.keyBase req.ext
              (effectiveShard req.shard profile.enableSharding req.keyBase))
            (buildRequiredHeaders req.mime) (now + profile.tokenTTLSeconds)
            profile.partSizeMB req.sizeBytes with
        | mk res calls =>
          rw [hcd] at h
          cases res with
          | error e => cases h
          | ok d => cases h; rfl
    · rw [PresignUpload, if_pos hm] at h
      cases h
  · intro hsh
    rw [effectiveShard, if_neg (fun hand => hsh hand.1)]
  · intro k1 k2 hsh
    rw [effectiveShard, if_neg (fun hand => hsh hand.1),
      effectiveShard, if_neg (fun hand => hsh hand.1)]
  · intro hsh hen
    rw [effectiveShard, if_pos ⟨hsh, hen⟩]
  · intro hsh hen
    have : effectiveShard req.shard profile.enableSharding req.keyBase = req.shard := by
      rw [effectiveShard, if_neg (fun hand => by rw [hen] at hand; cases hand.2)]
    exact ⟨this.trans hsh, by rw [this, hsh]⟩

/-- Witness for C10: concrete instantiations of every conjunct — the
shard override `"ab"` is used verbatim and independent of the key
base; empty shard with sharding enabled uses the generator; empty
shard with sharding disabled builds the key without a shard segment;
and the successful single-strategy response carries the key built by
this precedence. -/
theorem shard_precedence_witness :
    effectiveShard "ab" true "test-key" = "ab" ∧
    effectiveShard "ab" true "k1" = effectiveShard "ab" true "k2" ∧
    effectiveShard "" true "test-key" = GenerateShard "test-key" ∧
    (effectiveShard "" false "test-key" = "" ∧
      buildObjectKey profSingle.storagePath "test-key" "jpg"
        (effectiveShard "" false "test-key") =
      buildObjectKey profSingle.storagePath "test-key" "jpg" "") ∧
    { objectKey := "originals/test-key.jpg",
      upload := { single := some
                    { method := "PUT",
                      url := "https://s3/originals/test-key.jpg",
                      headers := [("Content-Type", "image/jpeg"), ("If-None-Match", "*")],
                      expiresAt := (900 : Int) },
                  multipart := none } : PresignResponse }.objectKey =
      buildObjectKey profSingle.storagePath reqJpeg.keyBase reqJpeg.ext
        (effectiveShard reqJpeg.shard profSingle.enableSharding reqJpeg.keyBase) :=
  ⟨(shard_precedence okClient { reqJpeg with shard := "ab" } profAvatar 0
      ⟨"", ⟨none, none⟩⟩).2.1 (by decide),
   (shard_precedence okClient { reqJpeg with shard := "ab" } profAvatar 0
      ⟨"", ⟨none, none⟩⟩).2.2.1 "k1" "k2" (by decide),
   (shard_precedence okClient reqJpeg profAvatar 0 ⟨"", ⟨none, none⟩⟩).2.2.2.1
      (by decide) (by decide),
   (shard_precedence okClient reqJpeg profSingle 0 ⟨"", ⟨none, none⟩⟩).2.2.2.2
      (by decide) (by decide),
   (shard_precedence okClient reqJpeg profSingle 0 _).1 (by decide)⟩

/-- Claim C5: a successfully built multipart plan has
`ceil(totalSizeBytes / (partSizeMB * 1024 * 1024))` parts, clamped to
at most 100 regardless of the computed count; the part list is
numbered `1 .. N` sequentially with no gaps, each part a `PUT`
carrying the same required headers (and expiry) as the base request. -/
theorem multipart_part_count_and_numbering :
    ∀ (client : S3Client) (key : String) (hdrs : List (String × String))
      (e p t : Int) (d : UploadDetails) (calls : List Call),
      0 < p →
      createUploadDetails client "multipart" key hdrs e p t = (.ok d, calls) →
      d.single = none ∧
      ∃ mp, d.multipart = some mp ∧
        mp.partSize = p * 1024 * 1024 ∧
        mp.parts.length = min (⌈(t : ℚ) / ((p : ℚ) * 1024 * 1024)⌉).toNat 100 ∧
        ∀ j (hj : j < mp.parts.length),
          (mp.parts.get ⟨j, hj⟩).partNumber = j + 1 ∧
          (mp.parts.get ⟨j, hj⟩).method = "PUT" ∧
          (mp.parts.get ⟨j, hj⟩).headers = hdrs ∧
          (mp.parts.get ⟨j, hj⟩).expiresAt = e := by
  intro client key hdrs e p t d calls hp h
  obtain ⟨h1, mp, h2, h3, h4, h5⟩ := createUploadDetails_multipart_ok client
    "multipart" key hdrs e p t d calls (by decide) h
  have hq : ceilDiv t (p * 1024 * 1024) = ⌈(t : ℚ) / ((p : ℚ) * 1024 * 1024)⌉ := by
    rw [ceilDiv_eq_rat_ceil t (p * 1024 * 1024)
      (by have : (0 : Int) < 1024 * 1024 := by norm_num
          calc (0 : Int) < p * (1024 * 1024) := mul_pos hp this
          _ = p * 1024 * 1024 := by ring)]
    push_cast
    ring_nf
  rw [hq] at h4
  exact ⟨h1, mp, h2, h3, h4, h5⟩

/-- The upload details built for the concrete 50MB / 8MB-parts
multipart scenario of `TestService_PresignUpload_MultipartStrategy`. -/
def d50 : UploadDetails :=
  ((createUploadDetails okClient "multipart" "originals/test-video.mp4"
    [("Content-Type", "video/mp4")] 900 8 52428800).1).toOption.getD ⟨none, none⟩

/-- The storage calls issued for the same scenario. -/
def calls50 : List Call :=
  (createUploadDetails okClient "multipart" "originals/test-video.mp4"
    [("Content-Type", "video/mp4")] 900 8 52428800).2

/-- Witness for C5: the 50MB file with 8MB parts yields exactly 7
parts numbered 1..7, each with method `PUT`. -/
theorem multipart_part_count_and_numbering_witness :
    d50.single = none ∧
    (d50.multipart.map fun mp => mp.parts.map (fun q => q.partNumber)) =
      some [1, 2, 3, 4, 5, 6, 7] ∧
    (d50.multipart.map fun mp => mp.parts.map (fun q => q.method)) =
      some ["PUT", "PUT", "PUT", "PUT", "PUT", "PUT", "PUT"] := by
  have h := multipart_part_count_and_numbering okClient "originals/test-video.mp4"
    [("Content-Type", "video/mp4")] 900 8 52428800 d50 calls50 (by decide) (by decide)
  exact ⟨h.1, by decide, by decide⟩

/-- Claim C8: validation failures (disallowed MIME or oversize) are
returned with zero storage calls issued; any part-presign failure
during multipart fan-out makes the part loop, the plan build and the
whole presign call return an error — a partial part list is never
returned (every successful plan has the full clamped part count). -/
theorem presign_fail_fast_and_error_propagation :
    (∀ (client : S3Client) (req : PresignRequest) (profile : Profile) (now : Int),
      req.mime ∉ profile.allowedMimes ∨ req.sizeBytes > profile.sizeMaxBytes →
      ∃ err, PresignUpload client req profile now = (.error err, [])) ∧
    (∀ (client : S3Client) (key uploadID : String) (hdrs : List (String × String))
       (e : Int) (n : Nat),
      (∃ j, j < n ∧ ∃ msg, client (.presignUploadPart key uploadID (j + 1)) = .error msg) →
      ∃ err, (presignParts client key uploadID hdrs e 0 n).1 = .error err) ∧
    (∀ (client : S3Client) (strategy key : String) (hdrs : List (String × String))
       (e p t : Int) (d : UploadDetails) (calls : List Call),
      createUploadDetails client strategy key hdrs e p t = (.ok d, calls) →
      ∀ mp, d.multipart = some mp →
        mp.parts.length = min (ceilDiv t (p * 1024 * 1024)).toNat 100) ∧
    (∀ (client : S3Client) (req : PresignRequest) (profile : Profile)
       (now : Int) (uploadID : String),
      req.mime ∈ profile.allowedMimes →
      req.sizeBytes ≤ profile.sizeMaxBytes →
      determineStrategy req.multipart req.sizeBytes profile.multipartThresholdMB = "multipart" →
      client (.createMultipartUpload
        (buildObjectKey profile.storagePath req.keyBase req.ext
          (effectiveShard req.shard profile.enableSharding req.keyBase))
        (buildRequiredHeaders req.mime)) = .ok uploadID →
      (∃ j, j < min (ceilDiv req.sizeBytes (profile.partSizeMB * 1024 * 1024)).toNat 100 ∧
        ∃ msg, client (.presignUploadPart
          (buildObjectKey profile.storagePath req.keyBase req.ext
            (effectiveShard req.shard profile.enableSharding req.keyBase))
          uploadID (j + 1)) = .error msg) →
      ∃ err, (PresignUpload client req profile now).1 = .error err) := by
  refine ⟨?_, ?_, ?_, ?_⟩
  · intro client req profile now hv
    rcases hv with hnm | hsz
    · exact ⟨_, by rw [PresignUpload,
        if_pos (fun h => hnm ((isMimeAllowed_iff_mem _ _).mp h))]⟩
    · by_cases hm : isMimeAllowed req.mime profile.allowedMimes = true
      · exact ⟨_, by rw [PresignUpload, if_neg (not_not_intro hm), if_pos hsz]⟩
      · exact ⟨_, by rw [PresignUpload, if_pos hm]⟩
  · intro client key uploadID hdrs e n hfail
    obtain ⟨j, hj, msg, hmsg⟩ := hfail
    exact presignParts_error_of_fail client key uploadID hdrs e n 0
      ⟨j, hj, msg, by rw [show 0 + j + 1 = j + 1 by omega]; exact hmsg⟩
  · intro client strategy key hdrs e p t d calls h mp hmp
    by_cases hs : strategy = "single"
    · rw [createUploadDetails, if_pos hs] at h
      dsimp only at h
      cases hc : client (.presignPutObject key (hdrs ++ [("If-None-Match", "*")])) with
      | error msg => rw [hc] at h; simp at h
      | ok url =>
        rw [hc] at h
        simp only [Prod.mk.injEq, Except.ok.injEq] at h
        obtain ⟨h1, _⟩ := h
        cases h1
        simp at hmp
    · obtain ⟨_, mp2, hmp2, _, hlen, _⟩ := createUploadDetails_multipart_ok client
        strategy key hdrs e p t d calls hs h
      rw [hmp2] at hmp
      cases hmp
      exact hlen
  · intro client req profile now uploadID hm hle hstrat hcreate hfail
    rw [PresignUpload_valid client req profile now hm hle, hstrat]
    obtain ⟨err, herr⟩ := createUploadDetails_error_of_part_fail client "multipart"
      (buildObjectKey profile.storagePath req.keyBase req.ext
        (effectiveShard req.shard profile.enableSharding req.keyBase))
      (buildRequiredHeaders req.mime) (now + profile.tokenTTLSeconds)
      profile.partSizeMB req.sizeBytes uploadID (by decide) hcreate hfail
    cases hcd : createUploadDetails client "multipart"
        (buildObjectKey profile.storagePath req.keyBase req.ext
          (effectiveShard req.shard profile.enableSharding req.keyBase))
        (buildRequiredHeaders req.mime) (now + profile.tokenTTLSeconds)
        profile.partSizeMB req.sizeBytes with
    | mk res calls =>
      rw [hcd] at herr
      dsimp only at herr
      rw [herr]
      exact ⟨_, rfl⟩

/-- Witness for C8: the disallowed-MIME request fails with zero
storage calls; a client whose part-presign calls fail makes the part
loop and the whole multipart presign call error out. -/
theorem presign_fail_fast_and_error_propagation_witness :
    (∃ err, PresignUpload okClient reqText profAvatar 0 = (.error err, [])) ∧
    (∃ err, (presignParts failPartClient "k" "id" [] 0 0 7).1 = .error err) ∧
    (∃ err, (PresignUpload failPartClient req50 profVideo 0).1 = .error err) :=
  ⟨presign_fail_fast_and_error_propagation.1 okClient reqText profAvatar 0
     (Or.inl (by decide)),
   presign_fail_fast_and_error_propagation.2.1 failPartClient "k" "id" [] 0 7
     ⟨0, by decide, "part boom", by decide⟩,
   presign_fail_fast_and_error_propagation.2.2.2 failPartClient req50 profVideo 0 "ok"
     (by decide) (by decide) (by decide) (by decide)
     ⟨0, by decide, "part boom", by decide⟩⟩

/-- Claim C1 (negative evaluation): at the exact multipart scenario of
`TestService_PresignUpload_MultipartStrategy` — a 50MB `video/mp4`
request against the video profile with an all-succeeding storage
client — `PresignUpload` returns a multipart plan whose `Complete` and
`Abort` descriptors are both `nil`, and the whole service has no
parameter through which the API base URL could reach the URL builder.
The repository's own test (service_test.go:950-973) requires `Complete`
with method `POST` and `Abort` with method `DELETE` at
`\x7bbase\x7d/v1/uploads/\x7bobject_key\x7d/complete|abort/\x7bupload_id\x7d`. -/
theorem multipart_plan_missing_complete_abort :
    ((PresignUpload okClient req50 profVideo 0).1.map
      (fun r => r.upload.multipart.map (fun mp => (mp.complete, mp.abort)))) =
    .ok (some (none, none)) := by
  decide

end Mediaflow
